import Mathlib

/-!
Shallow embedding of libavcodec/libsvt_vp9.c, the FFmpeg adapter for the
SVT-VP9 encoder library, together with proofs about its behaviour.

Conventions of the embedding:
* C machine integers are modelled as Int (signed fields) or Nat (unsigned
  fields); none of the adapter's own arithmetic can overflow on the value
  ranges its option table admits, so no explicit wrap-around is modelled.
* Pointers from the external engine (handles, buffer pointers) are opaque;
  the behaviour of each external call is an explicit oracle argument of the
  function that performs the call, so that every possible engine response is
  quantified over.
* Fallible allocations (av_buffer_pool_get, alloc_buffer) are likewise
  driven by a Bool oracle.
-/

/-! ### Host-framework error codes (libavutil/error.h, errno) -/

def EAGAIN : Nat := 11
def ENOMEM : Nat := 12
def EINVAL : Nat := 22

/-- AVERROR(e) = -e on platforms where errno values are positive. -/
def AVERROR (e : Nat) : Int := -(e : Int)

/-- MKTAG from libavutil/common.h: four bytes packed little-endian. -/
def MKTAG (a b c d : Nat) : Nat := a ||| (b <<< 8) ||| (c <<< 16) ||| (d <<< 24)

/-- FFERRTAG: negated MKTAG. -/
def FFERRTAG (a b c d : Nat) : Int := -(MKTAG a b c d : Int)

/-- AVERROR_EOF, tag bytes 69 79 70 32, i.e. E O F space. -/
def AVERROR_EOF : Int := FFERRTAG 69 79 70 32

/-- AVERROR_EXTERNAL, tag bytes 69 88 84 32, i.e. E X T space. -/
def AVERROR_EXTERNAL : Int := FFERRTAG 69 88 84 32

/-- AVERROR_UNKNOWN, tag bytes 85 78 75 78, i.e. U N K N. -/
def AVERROR_UNKNOWN : Int := FFERRTAG 85 78 75 78

/-! ### Packet and codec flags (libavcodec) -/

def AV_PKT_FLAG_KEY : Nat := 1
def AV_PKT_FLAG_DISPOSABLE : Nat := 16

/-- Fork-specific packet flag; its numeric value is defined in the forks
avcodec.h, outside this file. No claim depends on the value, only on it
being OR-ed into the packet flags. -/
def AV_PKT_FLAG_SVT_VP9_EXT_ON : Nat := 65536

/-- Fork-specific packet flag, see AV_PKT_FLAG_SVT_VP9_EXT_ON. -/
def AV_PKT_FLAG_SVT_VP9_EXT_OFF : Nat := 131072

/-- AV_CODEC_FLAG_CLOSED_GOP = 1 << 31. -/
def AV_CODEC_FLAG_CLOSED_GOP : Nat := 2147483648

/-! ### External SVT-VP9 library types (EbSvtVp9ErrorCodes.h, EbSvtVp9Enc.h) -/

/-- The error enumeration of the external encoder library. The named
constructors are exactly the values the adapter mentions; EB_ErrorOther
stands for any other value of the underlying C integer type (it carries
that integer, which the adapter never inspects beyond the switch default). -/
inductive EbErrorType
  | EB_ErrorNone
  | EB_ErrorInsufficientResources
  | EB_ErrorUndefined
  | EB_ErrorInvalidComponent
  | EB_ErrorBadParameter
  | EB_ErrorDestroyThreadFailed
  | EB_ErrorSemaphoreUnresponsive
  | EB_ErrorDestroySemaphoreFailed
  | EB_ErrorCreateMutexFailed
  | EB_ErrorMutexUnresponsive
  | EB_ErrorDestroyMutexFailed
  | EB_NoErrorEmptyQueue
  | EB_ErrorOther (code : Int)
deriving DecidableEq

/-- Buffer flag from the external library header: end of stream. -/
def EB_BUFFERFLAG_EOS : Nat := 1

/-- Buffer flag from the external library header: show existing frame. -/
def EB_BUFFERFLAG_SHOW_EXT : Nat := 2

/-- Picture types of the external library that the adapter mentions. -/
inductive EbPictureType
  | EB_IDR_PICTURE
  | EB_I_PICTURE
  | EB_P_PICTURE
  | EB_B_PICTURE
  | EB_NON_REF_PICTURE
  | EB_INVALID_PICTURE
deriving DecidableEq

/-- EbSvtEncInput: the plane pointers and strides handed to the engine.
Plane pointers are modelled as opaque addresses (Nat). -/
structure EbSvtEncInput where
  luma : Nat
  cb : Nat
  cr : Nat
  y_stride : Nat
  cb_stride : Nat
  cr_stride : Nat
deriving DecidableEq

/-- What the p_buffer pointer of a buffer header points at: nothing, an
input descriptor (for frames going into the engine), or raw bitstream
bytes (for packets coming out of the engine). In C this is a single
unsigned char pointer reinterpreted by each side. -/
inductive BufferContents
  | empty
  | input (d : EbSvtEncInput)
  | bytes (bs : List Nat)
deriving DecidableEq

/-- EbBufferHeaderType, restricted to the fields the adapter reads or
writes. p_app_private is modelled as a Bool recording whether it is
non-null (the adapter only ever stores NULL). The size field, which the
adapter sets once to sizeof and never reads, is omitted. -/
structure EbBufferHeaderType where
  n_alloc_len : Nat
  n_filled_len : Nat
  n_tick_count : Nat
  p_app_private : Bool
  p_buffer : BufferContents
  flags : Nat
  pts : Int
  dts : Int
  pic_type : EbPictureType
deriving DecidableEq

/-- Bitstream bytes behind a p_buffer pointer; empty for non-bitstream
contents (the C code would read whatever memory is there, but the engine
only ever hands the adapter bitstream buffers). -/
def bufferBytes : BufferContents → List Nat
  | .bytes bs => bs
  | _ => []

/-- EbSvtVp9EncConfiguration, restricted to the fields the adapter writes.
Width, height and bit depth are unsigned in the C struct and modelled as
Nat; the option-derived and rate fields are modelled as Int. -/
structure EbSvtVp9EncConfiguration where
  source_width : Nat
  source_height : Nat
  enc_mode : Int
  level : Int
  rate_control_mode : Int
  tune : Int
  base_layer_switch_mode : Int
  qp : Int
  target_bit_rate : Int
  intra_period : Int
  frame_rate_numerator : Int
  frame_rate_denominator : Int
  max_qp_allowed : Int
  min_qp_allowed : Int
  intra_refresh_type : Int
  encoder_bit_depth : Nat
deriving DecidableEq

/-! ### Host-framework types (libavutil, libavcodec) -/

inductive AVPixelFormat
  | AV_PIX_FMT_YUV420P
  | AV_PIX_FMT_YUV420P10LE
  | other (n : Nat)
deriving DecidableEq

/-- The picture-type enumeration of the host framework. -/
inductive AVPictureType
  | AV_PICTURE_TYPE_NONE
  | AV_PICTURE_TYPE_I
  | AV_PICTURE_TYPE_P
  | AV_PICTURE_TYPE_B
  | AV_PICTURE_TYPE_S
  | AV_PICTURE_TYPE_SI
  | AV_PICTURE_TYPE_SP
  | AV_PICTURE_TYPE_BI
deriving DecidableEq

/-- AVFrame, restricted to the fields read by the adapter. Plane pointers
are opaque addresses; line sizes are non-negative in every configuration
this encoder accepts and are modelled as Nat. -/
structure AVFrame where
  pts : Int
  pict_type : AVPictureType
  data0 : Nat
  data1 : Nat
  data2 : Nat
  linesize0 : Nat
  linesize1 : Nat
  linesize2 : Nat
deriving DecidableEq

/-- AVPacket, restricted to the fields written by the adapter. buf records
whether a buffer reference has been attached; data holds the copied
bitstream bytes. -/
structure AVPacket where
  buf : Bool
  data : List Nat
  size : Nat
  pts : Int
  dts : Int
  flags : Nat
deriving DecidableEq

structure AVRational where
  num : Int
  den : Int
deriving DecidableEq

/-! ### The adapter context (struct SvtContext) -/

/-- The three-valued end-of-stream flag. C enum values 0, 1, 2. -/
inductive EOS_STATUS
  | EOS_NOT_REACHED
  | EOS_REACHED
  | EOS_TOTRIGGER
deriving DecidableEq

/-- Numeric value of the C enum constant, used to order the progression. -/
def EOS_STATUS.toNat : EOS_STATUS → Nat
  | .EOS_NOT_REACHED => 0
  | .EOS_REACHED => 1
  | .EOS_TOTRIGGER => 2

/-- struct SvtContext. The AVClass pointer, the engine handle and the
buffer pool are opaque and carried implicitly by the oracles; the
remaining fields are modelled directly. -/
structure SvtContext where
  enc_params : EbSvtVp9EncConfiguration
  in_buf : EbBufferHeaderType
  raw_size : Nat
  eos_flag : EOS_STATUS
  enc_mode : Int
  rc_mode : Int
  tune : Int
  qp : Int
  forced_idr : Int
  level : Int
  base_layer_switch_mode : Int
deriving DecidableEq

/-- AVCodecContext, restricted to the fields the adapter reads. -/
structure AVCodecContext where
  priv_data : SvtContext
  width : Int
  height : Int
  pix_fmt : AVPixelFormat
  bit_rate : Int
  gop_size : Int
  framerate : AVRational
  time_base : AVRational
  ticks_per_frame : Int
  flags : Nat
  qmin : Int
  qmax : Int
deriving DecidableEq

/-! ### error_mapping -/

/-- error_mapping from libsvt_vp9.c. In the C source the
EB_NoErrorEmptyQueue case assigns AVERROR(EAGAIN) to err but is not
followed by a break, so control falls through into the EB_ErrorNone case,
which overwrites err with 0 before its break. The observable result for
EB_NoErrorEmptyQueue is therefore 0, and that is what this embedding
returns for it. -/
def error_mapping (svt_ret : EbErrorType) : Int :=
  match svt_ret with
  | .EB_ErrorInsufficientResources => AVERROR ENOMEM
  | .EB_ErrorUndefined
  | .EB_ErrorInvalidComponent
  | .EB_ErrorBadParameter => AVERROR EINVAL
  | .EB_ErrorDestroyThreadFailed
  | .EB_ErrorSemaphoreUnresponsive
  | .EB_ErrorDestroySemaphoreFailed
  | .EB_ErrorCreateMutexFailed
  | .EB_ErrorMutexUnresponsive
  | .EB_ErrorDestroyMutexFailed => AVERROR_EXTERNAL
  | .EB_NoErrorEmptyQueue => 0
  | .EB_ErrorNone => 0
  | .EB_ErrorOther _ => AVERROR_UNKNOWN

/-! ### config_enc_params and buffer management -/

/-- A buffer header whose bytes are all zero, as produced by av_mallocz. -/
def zeroHeader : EbBufferHeaderType :=
  { n_alloc_len := 0, n_filled_len := 0, n_tick_count := 0,
    p_app_private := false, p_buffer := .empty, flags := 0,
    pts := 0, dts := 0, pic_type := .EB_INVALID_PICTURE }

/-- An input descriptor whose bytes are all zero, as produced by av_mallocz. -/
def zeroEncInput : EbSvtEncInput :=
  { luma := 0, cb := 0, cr := 0, y_stride := 0, cb_stride := 0, cr_stride := 0 }

/-- free_buffer from libsvt_vp9.c: frees the input buffer descriptor and
uninitializes the output pool. Modelled as resetting in_buf; the pool is
carried by the poolOk oracle, not by the state. -/
def free_buffer (svt_enc : SvtContext) : SvtContext :=
  { svt_enc with in_buf := zeroHeader }

/-- alloc_buffer from libsvt_vp9.c, successful path: computes raw_size and
allocates the zeroed input buffer descriptor. The failing path is driven
by the allocOk oracle of the caller. -/
def alloc_buffer (config : EbSvtVp9EncConfiguration) (svt_enc : SvtContext) :
    SvtContext :=
  let luma_size_8bit := config.source_width * config.source_height
  let luma_size_10bit := if 8 < config.encoder_bit_depth then luma_size_8bit else 0
  { svt_enc with
    raw_size := (luma_size_8bit + luma_size_10bit) * 3 / 2,
    in_buf := { zeroHeader with p_buffer := .input zeroEncInput } }

/-- First half of the parameter updates of config_enc_params from
libsvt_vp9.c, in source order: size, user options, bit rate, intra period
and frame rate. Split from the second half only to keep each definition
small; config_enc_params below chains the two. -/
def config_enc_params_options (param : EbSvtVp9EncConfiguration)
    (avctx : AVCodecContext) : EbSvtVp9EncConfiguration :=
  let svt_enc := avctx.priv_data
  let p1 := { param with
    source_width := avctx.width.toNat,
    source_height := avctx.height.toNat,
    enc_mode := svt_enc.enc_mode,
    level := svt_enc.level,
    rate_control_mode := svt_enc.rc_mode,
    tune := svt_enc.tune,
    base_layer_switch_mode := svt_enc.base_layer_switch_mode,
    qp := svt_enc.qp,
    target_bit_rate := avctx.bit_rate }
  let p2 := if 0 < avctx.gop_size then
      { p1 with intra_period := avctx.gop_size - 1 }
    else p1
  if 0 < avctx.framerate.num ∧ 0 < avctx.framerate.den then
    { p2 with
      frame_rate_numerator := avctx.framerate.num,
      frame_rate_denominator := avctx.framerate.den * avctx.ticks_per_frame }
  else
    { p2 with
      frame_rate_numerator := avctx.time_base.den,
      frame_rate_denominator := avctx.time_base.num * avctx.ticks_per_frame }

/-- The parameter-update part of config_enc_params from libsvt_vp9.c: the
assignments of config_enc_params_options followed by the remaining ones
(qp bounds under rate control, intra refresh type, ten-bit depth), in
source order. The trailing alloc_buffer call touches only the context, not
the configuration, and is modelled in eb_enc_init via the allocOk oracle. -/
def config_enc_params (param : EbSvtVp9EncConfiguration)
    (avctx : AVCodecContext) : EbSvtVp9EncConfiguration :=
  let p3 := config_enc_params_options param avctx
  let p4 := if p3.rate_control_mode ≠ 0 then
      { p3 with max_qp_allowed := avctx.qmax, min_qp_allowed := avctx.qmin }
    else p3
  let p5 := { p4 with intra_refresh_type :=
      (if avctx.flags &&& AV_CODEC_FLAG_CLOSED_GOP ≠ 0 then 1 else 0) + 1 }
  if avctx.pix_fmt = AVPixelFormat.AV_PIX_FMT_YUV420P10LE then
    { p5 with encoder_bit_depth := 10 }
  else p5

/-! ### read_in_data and eb_send_frame -/

/-- read_in_data from libsvt_vp9.c: fills the input descriptor behind the
buffer header from the frame and adds the frame size to n_filled_len. -/
def read_in_data (config : EbSvtVp9EncConfiguration) (frame : AVFrame)
    (headerPtr : EbBufferHeaderType) : EbBufferHeaderType :=
  let is16bit : Nat := if 8 < config.encoder_bit_depth then 1 else 0
  let luma_size : Nat := config.source_width * config.source_height <<< is16bit
  let in_data : EbSvtEncInput :=
    { luma := frame.data0, cb := frame.data1, cr := frame.data2,
      y_stride := frame.linesize0 >>> is16bit,
      cb_stride := frame.linesize1 >>> is16bit,
      cr_stride := frame.linesize2 >>> is16bit }
  { headerPtr with
    p_buffer := .input in_data,
    n_filled_len := headerPtr.n_filled_len + luma_size * 3 / 2 }

/-- Result of eb_send_frame: the returned code, the updated context, and
the buffer header handed to the engine picture-submission call. -/
structure SendResult where
  ret : Int
  svt : SvtContext
  sent : EbBufferHeaderType
deriving DecidableEq

/-- eb_send_frame from libsvt_vp9.c. sendRet is the value returned by the
external eb_vp9_svt_enc_send_picture call; the C code never reads it, which
the embedding makes literal by never using the argument. For a null frame
the C code sends a stack-local header initializing only n_alloc_len,
n_filled_len, n_tick_count, p_app_private, p_buffer and flags; the fields
it leaves uninitialized are modelled as zero. -/
def eb_send_frame (svt_enc : SvtContext) (frame : Option AVFrame)
    (sendRet : EbErrorType) : SendResult :=
  match frame with
  | none =>
    let headerPtrLast : EbBufferHeaderType :=
      { n_alloc_len := 0, n_filled_len := 0, n_tick_count := 0,
        p_app_private := false, p_buffer := .empty,
        flags := EB_BUFFERFLAG_EOS, pts := 0, dts := 0,
        pic_type := .EB_INVALID_PICTURE }
    { ret := 0,
      svt := { svt_enc with eos_flag := .EOS_REACHED },
      sent := headerPtrLast }
  | some fr =>
    let h0 := read_in_data svt_enc.enc_params fr svt_enc.in_buf
    let ptype : EbPictureType :=
      match fr.pict_type with
      | .AV_PICTURE_TYPE_I =>
        if 0 < svt_enc.forced_idr then .EB_IDR_PICTURE else .EB_I_PICTURE
      | .AV_PICTURE_TYPE_P => .EB_P_PICTURE
      | .AV_PICTURE_TYPE_B => .EB_B_PICTURE
      | _ => .EB_INVALID_PICTURE
    let h1 := { h0 with
      flags := 0, p_app_private := false, pts := fr.pts, pic_type := ptype }
    { ret := 0, svt := { svt_enc with in_buf := h1 }, sent := h1 }

/-! ### eb_receive_packet -/

/-- Oracle for the external eb_vp9_svt_get_packet call: either the
empty-queue signal EB_NoErrorEmptyQueue, or a filled output buffer header
(the C code treats every return value other than EB_NoErrorEmptyQueue as
success and uses the header). -/
inductive GetPacketResult
  | emptyQueue
  | gotPacket (hdr : EbBufferHeaderType)
deriving DecidableEq

/-- Result of eb_receive_packet: the returned code, the updated context,
the (possibly updated) packet, whether the engine was queried, and whether
the engine output buffer was released. -/
structure ReceiveResult where
  ret : Int
  svt : SvtContext
  pkt : AVPacket
  engine_queried : Bool
  released_out_buffer : Bool
deriving DecidableEq

/-- eb_receive_packet from libsvt_vp9.c. poolOk is the oracle for
av_buffer_pool_get succeeding. In the early end-of-stream branch the C
code assigns NULL to its local pkt pointer, which leaves the callers
packet untouched; the embedding returns the packet unchanged there. -/
def eb_receive_packet (svt_enc : SvtContext) (engine : GetPacketResult)
    (poolOk : Bool) (pkt : AVPacket) : ReceiveResult :=
  if svt_enc.eos_flag = EOS_STATUS.EOS_TOTRIGGER then
    { ret := AVERROR_EOF, svt := svt_enc, pkt := pkt,
      engine_queried := false, released_out_buffer := false }
  else
    match engine with
    | .emptyQueue =>
      { ret := AVERROR EAGAIN, svt := svt_enc, pkt := pkt,
        engine_queried := true, released_out_buffer := false }
    | .gotPacket hdr =>
      if !poolOk then
        { ret := AVERROR ENOMEM, svt := svt_enc, pkt := pkt,
          engine_queried := true, released_out_buffer := true }
      else
        let pkt1 : AVPacket := { pkt with
          buf := true,
          data := (bufferBytes hdr.p_buffer).take hdr.n_filled_len,
          size := hdr.n_filled_len,
          pts := hdr.pts,
          dts := hdr.dts }
        let f1 := if hdr.pic_type = EbPictureType.EB_IDR_PICTURE ∨
                     hdr.pic_type = EbPictureType.EB_I_PICTURE then
            pkt1.flags ||| AV_PKT_FLAG_KEY
          else pkt1.flags
        let f2 := if hdr.pic_type = EbPictureType.EB_NON_REF_PICTURE then
            f1 ||| AV_PKT_FLAG_DISPOSABLE
          else f1
        let f3 := if hdr.flags &&& EB_BUFFERFLAG_SHOW_EXT ≠ 0 then
            f2 ||| AV_PKT_FLAG_SVT_VP9_EXT_ON
          else f2 ||| AV_PKT_FLAG_SVT_VP9_EXT_OFF
        let eflag := if EB_BUFFERFLAG_EOS = hdr.flags then
            EOS_STATUS.EOS_TOTRIGGER
          else svt_enc.eos_flag
        { ret := 0,
          svt := { svt_enc with eos_flag := eflag },
          pkt := { pkt1 with flags := f3 },
          engine_queried := true, released_out_buffer := true }

/-! ### eb_enc_init -/

/-- eb_enc_init from libsvt_vp9.c. The three EbErrorType arguments are the
oracles for the external calls eb_vp9_svt_init_handle,
eb_vp9_svt_enc_set_parameter and eb_vp9_init_encoder; allocOk drives the
allocations inside alloc_buffer. When allocation fails, config_enc_params
returns AVERROR(ENOMEM); the C code stores that int into an EbErrorType
variable and later maps it through error_mapping, where it hits the
default case — modelled by wrapping it in EB_ErrorOther. -/
def eb_enc_init (avctx : AVCodecContext)
    (initHandleRet setParamRet initEncRet : EbErrorType) (allocOk : Bool) :
    Int × SvtContext :=
  let svt0 := { avctx.priv_data with eos_flag := EOS_STATUS.EOS_NOT_REACHED }
  if initHandleRet ≠ EbErrorType.EB_ErrorNone then
    (error_mapping initHandleRet, free_buffer svt0)
  else
    let params := config_enc_params svt0.enc_params avctx
    let svt1 := { svt0 with enc_params := params }
    if !allocOk then
      (error_mapping (EbErrorType.EB_ErrorOther (AVERROR ENOMEM)),
       free_buffer svt1)
    else
      let svt2 := alloc_buffer params svt1
      if setParamRet ≠ EbErrorType.EB_ErrorNone then
        (error_mapping setParamRet, free_buffer svt2)
      else if initEncRet ≠ EbErrorType.EB_ErrorNone then
        (error_mapping initEncRet, free_buffer svt2)
      else (0, svt2)

/-! ### Call sequences after initialization -/

/-- One call of the adapter interface after initialization, together with
the oracle data for the external calls it performs. -/
inductive AdapterCall
  | send (frame : Option AVFrame) (sendRet : EbErrorType)
  | receive (engine : GetPacketResult) (poolOk : Bool) (pkt : AVPacket)
deriving DecidableEq

/-- The context after one adapter call. -/
def stepCall (svt : SvtContext) (c : AdapterCall) : SvtContext :=
  match c with
  | .send frame sendRet => (eb_send_frame svt frame sendRet).svt
  | .receive engine poolOk pkt => (eb_receive_packet svt engine poolOk pkt).svt

/-- The context after a sequence of adapter calls. -/
def runCalls (svt : SvtContext) (calls : List AdapterCall) : SvtContext :=
  calls.foldl stepCall svt

/-! ### Concrete fixtures used by witnesses and counterexamples -/

/-- An all-zero engine configuration, as left by av_mallocz before the
engine fills in its defaults. -/
def zeroConfig : EbSvtVp9EncConfiguration :=
  { source_width := 0, source_height := 0, enc_mode := 0, level := 0,
    rate_control_mode := 0, tune := 0, base_layer_switch_mode := 0, qp := 0,
    target_bit_rate := 0, intra_period := 0, frame_rate_numerator := 0,
    frame_rate_denominator := 0, max_qp_allowed := 0, min_qp_allowed := 0,
    intra_refresh_type := 0, encoder_bit_depth := 0 }

/-- A context holding the default option values of the option table of
libsvt_vp9.c (preset 9, qp 32, everything else 0). -/
def svt_base : SvtContext :=
  { enc_params := zeroConfig, in_buf := zeroHeader, raw_size := 0,
    eos_flag := .EOS_NOT_REACHED, enc_mode := 9, rc_mode := 0, tune := 0,
    qp := 32, forced_idr := 0, level := 0, base_layer_switch_mode := 0 }

/-- A small 8-bit codec context with the default bit rate and qp bounds of
eb_enc_defaults. -/
def avctx0 : AVCodecContext :=
  { priv_data := svt_base, width := 64, height := 64,
    pix_fmt := .AV_PIX_FMT_YUV420P, bit_rate := 7000000, gop_size := 0,
    framerate := { num := 0, den := 1 }, time_base := { num := 1, den := 25 },
    ticks_per_frame := 1, flags := 0, qmin := 10, qmax := 48 }

/-- An empty packet, as handed to receive_packet by the framework. -/
def pkt0 : AVPacket :=
  { buf := false, data := [], size := 0, pts := 0, dts := 0, flags := 0 }

/-- An engine output header whose flags word equals EB_BUFFERFLAG_EOS. -/
def hdrEOS : EbBufferHeaderType :=
  { zeroHeader with flags := EB_BUFFERFLAG_EOS, p_buffer := .bytes [] }

/-- The context after the end-of-stream packet has been surfaced. -/
def svtTot : SvtContext := { svt_base with eos_flag := .EOS_TOTRIGGER }

/-- The context after a flush has been submitted. -/
def svtReached : SvtContext := { svt_base with eos_flag := .EOS_REACHED }

/-- A flush call: null frame submission. -/
def flushCall : AdapterCall := .send none .EB_ErrorNone

/-- A retrieval call in which the engine returns the end-of-stream packet
and the pool allocation succeeds. -/
def eosReceiveCall : AdapterCall := .receive (.gotPacket hdrEOS) true pkt0

/-- Flush, retrieve the end-of-stream packet, then flush again. -/
def regressTrace : List AdapterCall := [flushCall, eosReceiveCall, flushCall]

/-! ### Theorems -/

/-- C1 counterexample: it is not true that along every call sequence after
eb_enc_init the end-of-stream flag only moves forward. After flushing,
receiving the end-of-stream packet (flag EOS_TOTRIGGER) and flushing
again, the flag is back at EOS_REACHED: the null-frame branch of
eb_send_frame assigns EOS_REACHED unconditionally. -/
theorem eos_flag_never_regresses_false :
    ¬ (∀ (avctx : AVCodecContext) (r1 r2 r3 : EbErrorType) (aOk : Bool)
         (calls : List AdapterCall) (i j : Nat), i ≤ j →
         (runCalls (eb_enc_init avctx r1 r2 r3 aOk).2 (calls.take i)).eos_flag.toNat ≤
         (runCalls (eb_enc_init avctx r1 r2 r3 aOk).2 (calls.take j)).eos_flag.toNat) := by
  intro hmono
  have h2 := hmono avctx0 .EB_ErrorNone .EB_ErrorNone .EB_ErrorNone true
    regressTrace 2 3 (by decide)
  revert h2
  decide

/-- C1 (amended): every call of eb_send_frame or eb_receive_packet moves
the end-of-stream flag forward or leaves it unchanged, with the single
exception of a null-frame submission while the flag is EOS_TOTRIGGER,
which resets it to EOS_REACHED. -/
theorem eos_flag_monotone_except_flush_after_totrigger :
    ∀ (svt : SvtContext) (c : AdapterCall),
      svt.eos_flag.toNat ≤ (stepCall svt c).eos_flag.toNat ∨
      ((∃ r, c = AdapterCall.send none r) ∧
        svt.eos_flag = EOS_STATUS.EOS_TOTRIGGER ∧
        (stepCall svt c).eos_flag = EOS_STATUS.EOS_REACHED) := by
  intro svt c
  cases c with
  | send frame sendRet =>
    cases frame with
    | none =>
      cases h : svt.eos_flag with
      | EOS_TOTRIGGER => exact Or.inr ⟨⟨sendRet, rfl⟩, rfl, rfl⟩
      | EOS_NOT_REACHED => exact Or.inl (Nat.zero_le _)
      | EOS_REACHED => exact Or.inl (Nat.le_refl _)
    | some fr => exact Or.inl (Nat.le_refl _)
  | receive engine poolOk pkt =>
    apply Or.inl
    by_cases h : svt.eos_flag = EOS_STATUS.EOS_TOTRIGGER
    · simp [stepCall, eb_receive_packet, h]
    · cases engine with
      | emptyQueue => simp [stepCall, eb_receive_packet, h]
      | gotPacket hdr =>
        cases poolOk with
        | false => simp [stepCall, eb_receive_packet, h]
        | true =>
          simp only [stepCall, eb_receive_packet, if_neg h, Bool.not_true,
            Bool.false_eq_true, if_false]
          split
          · cases hh : svt.eos_flag <;> simp [EOS_STATUS.toNat]
          · exact Nat.le_refl _

/-- C2: evaluation of error_mapping at the failing input. The
EB_NoErrorEmptyQueue case assigns AVERROR(EAGAIN) but lacks a break and
falls through into the EB_ErrorNone case, so the function returns 0, not
AVERROR(EAGAIN). -/
theorem error_mapping_empty_queue_fallthrough :
    error_mapping EbErrorType.EB_NoErrorEmptyQueue = 0 ∧
    error_mapping EbErrorType.EB_NoErrorEmptyQueue ≠ AVERROR EAGAIN ∧
    error_mapping EbErrorType.EB_ErrorNone = 0 := by decide

/-- C3: when the end-of-stream flag is EOS_TOTRIGGER, eb_receive_packet
returns AVERROR_EOF, leaves the context and the packet untouched, does not
query the engine and does not release any engine buffer. -/
theorem eb_receive_packet_after_totrigger :
    ∀ (svt : SvtContext) (engine : GetPacketResult) (poolOk : Bool)
      (pkt : AVPacket),
      svt.eos_flag = EOS_STATUS.EOS_TOTRIGGER →
      eb_receive_packet svt engine poolOk pkt =
        { ret := AVERROR_EOF, svt := svt, pkt := pkt,
          engine_queried := false, released_out_buffer := false } := by
  intro svt engine poolOk pkt h
  simp [eb_receive_packet, h]

/-- Witness for C3 at a concrete context with the flag at EOS_TOTRIGGER. -/
theorem eb_receive_packet_after_totrigger_witness :
    svtTot.eos_flag = EOS_STATUS.EOS_TOTRIGGER ∧
    eb_receive_packet svtTot GetPacketResult.emptyQueue true pkt0 =
      { ret := AVERROR_EOF, svt := svtTot, pkt := pkt0,
        engine_queried := false, released_out_buffer := false } :=
  ⟨rfl, eb_receive_packet_after_totrigger svtTot GetPacketResult.emptyQueue
    true pkt0 rfl⟩

/-- C9: when the pool allocation fails after a packet was retrieved,
eb_receive_packet releases the engine output buffer, returns
AVERROR(ENOMEM), and leaves the context — in particular the end-of-stream
flag — and the packet unchanged, for every retrieved header, including one
carrying the end-of-stream buffer flag. -/
theorem eb_receive_packet_pool_failure :
    ∀ (svt : SvtContext) (hdr : EbBufferHeaderType) (pkt : AVPacket),
      svt.eos_flag ≠ EOS_STATUS.EOS_TOTRIGGER →
      eb_receive_packet svt (GetPacketResult.gotPacket hdr) false pkt =
        { ret := AVERROR ENOMEM, svt := svt, pkt := pkt,
          engine_queried := true, released_out_buffer := true } := by
  intro svt hdr pkt h
  simp [eb_receive_packet, h]

/-- Witness for C9 at a concrete context whose flag is EOS_REACHED and a
header that carries the end-of-stream buffer flag. -/
theorem eb_receive_packet_pool_failure_witness :
    svtReached.eos_flag ≠ EOS_STATUS.EOS_TOTRIGGER ∧
    hdrEOS.flags = EB_BUFFERFLAG_EOS ∧
    eb_receive_packet svtReached (GetPacketResult.gotPacket hdrEOS) false pkt0 =
      { ret := AVERROR ENOMEM, svt := svtReached, pkt := pkt0,
        engine_queried := true, released_out_buffer := true } :=
  ⟨by decide, rfl,
    eb_receive_packet_pool_failure svtReached hdrEOS pkt0 (by decide)⟩

/-- Closed form of config_enc_params: each configuration field as a
function of the codec context and the prior configuration. -/
theorem config_enc_params_eq (param : EbSvtVp9EncConfiguration)
    (avctx : AVCodecContext) :
    config_enc_params param avctx =
      { source_width := avctx.width.toNat,
        source_height := avctx.height.toNat,
        enc_mode := avctx.priv_data.enc_mode,
        level := avctx.priv_data.level,
        rate_control_mode := avctx.priv_data.rc_mode,
        tune := avctx.priv_data.tune,
        base_layer_switch_mode := avctx.priv_data.base_layer_switch_mode,
        qp := avctx.priv_data.qp,
        target_bit_rate := avctx.bit_rate,
        intra_period :=
          if 0 < avctx.gop_size then avctx.gop_size - 1
          else param.intra_period,
        frame_rate_numerator :=
          if 0 < avctx.framerate.num ∧ 0 < avctx.framerate.den then
            avctx.framerate.num
          else avctx.time_base.den,
        frame_rate_denominator :=
          if 0 < avctx.framerate.num ∧ 0 < avctx.framerate.den then
            avctx.framerate.den * avctx.ticks_per_frame
          else avctx.time_base.num * avctx.ticks_per_frame,
        max_qp_allowed :=
          if avctx.priv_data.rc_mode ≠ 0 then avctx.qmax
          else param.max_qp_allowed,
        min_qp_allowed :=
          if avctx.priv_data.rc_mode ≠ 0 then avctx.qmin
          else param.min_qp_allowed,
        intra_refresh_type :=
          (if avctx.flags &&& AV_CODEC_FLAG_CLOSED_GOP ≠ 0 then 1 else 0) + 1,
        encoder_bit_depth :=
          if avctx.pix_fmt = AVPixelFormat.AV_PIX_FMT_YUV420P10LE then 10
          else param.encoder_bit_depth } := by
  by_cases h1 : 0 < avctx.gop_size <;>
  by_cases h2 : 0 < avctx.framerate.num ∧ 0 < avctx.framerate.den <;>
  by_cases h3 : avctx.priv_data.rc_mode ≠ 0 <;>
  by_cases h4 : avctx.pix_fmt = AVPixelFormat.AV_PIX_FMT_YUV420P10LE <;>
    simp [config_enc_params, config_enc_params_options, h1, h2, h3, h4]

/-- C4: config_enc_params copies each user option value — enc_mode, level,
rate-control mode, tune, base_layer_switch_mode and qp — from the adapter
context into the corresponding engine configuration field unchanged, for
every option value. -/
theorem config_enc_params_copies_options :
    ∀ (param : EbSvtVp9EncConfiguration) (avctx : AVCodecContext),
      (config_enc_params param avctx).enc_mode = avctx.priv_data.enc_mode ∧
      (config_enc_params param avctx).level = avctx.priv_data.level ∧
      (config_enc_params param avctx).rate_control_mode = avctx.priv_data.rc_mode ∧
      (config_enc_params param avctx).tune = avctx.priv_data.tune ∧
      (config_enc_params param avctx).base_layer_switch_mode =
        avctx.priv_data.base_layer_switch_mode ∧
      (config_enc_params param avctx).qp = avctx.priv_data.qp := by
  intro param avctx
  simp [config_enc_params_eq]

/-- C5: config_enc_params derives the engine frame rate from
avctx.framerate when both its parts are positive (denominator scaled by
ticks_per_frame), and from the inverted time base otherwise. -/
theorem config_enc_params_frame_rate :
    ∀ (param : EbSvtVp9EncConfiguration) (avctx : AVCodecContext),
      (config_enc_params param avctx).frame_rate_numerator =
        (if 0 < avctx.framerate.num ∧ 0 < avctx.framerate.den then
          avctx.framerate.num
        else avctx.time_base.den) ∧
      (config_enc_params param avctx).frame_rate_denominator =
        (if 0 < avctx.framerate.num ∧ 0 < avctx.framerate.den then
          avctx.framerate.den * avctx.ticks_per_frame
        else avctx.time_base.num * avctx.ticks_per_frame) := by
  intro param avctx
  simp [config_enc_params_eq]

/-- C7: config_enc_params sets encoder_bit_depth to 10 exactly when the
pixel format is AV_PIX_FMT_YUV420P10LE, and otherwise leaves the field at
its prior value. -/
theorem config_enc_params_bit_depth :
    ∀ (param : EbSvtVp9EncConfiguration) (avctx : AVCodecContext),
      (config_enc_params param avctx).encoder_bit_depth =
        if avctx.pix_fmt = AVPixelFormat.AV_PIX_FMT_YUV420P10LE then 10
        else param.encoder_bit_depth := by
  intro param avctx
  simp [config_enc_params_eq]

/-- C8: eb_send_frame returns 0 for every input, null or not, and its
entire result is independent of the value the engine picture-submission
call returns — that value is discarded. -/
theorem eb_send_frame_returns_zero_and_ignores_engine :
    ∀ (svt : SvtContext) (frame : Option AVFrame) (r1 r2 : EbErrorType),
      (eb_send_frame svt frame r1).ret = 0 ∧
      eb_send_frame svt frame r1 = eb_send_frame svt frame r2 := by
  intro svt frame r1 r2
  cases frame <;> exact ⟨rfl, rfl⟩

/-- C10: for every non-null frame, eb_send_frame maps the picture type of
the frame to the engine picture type: I becomes EB_IDR_PICTURE when the
forced_idr option is positive and EB_I_PICTURE otherwise, P becomes
EB_P_PICTURE, B becomes EB_B_PICTURE, and every other type becomes
EB_INVALID_PICTURE. -/
theorem eb_send_frame_pic_type_mapping :
    ∀ (svt : SvtContext) (fr : AVFrame) (r : EbErrorType),
      (eb_send_frame svt (some fr) r).sent.pic_type =
        match fr.pict_type with
        | .AV_PICTURE_TYPE_I =>
          if 0 < svt.forced_idr then EbPictureType.EB_IDR_PICTURE
          else EbPictureType.EB_I_PICTURE
        | .AV_PICTURE_TYPE_P => EbPictureType.EB_P_PICTURE
        | .AV_PICTURE_TYPE_B => EbPictureType.EB_B_PICTURE
        | _ => EbPictureType.EB_INVALID_PICTURE := by
  intro svt fr r
  cases h : fr.pict_type <;> simp [eb_send_frame, h]

/-- C6: error_mapping translates resource exhaustion to AVERROR(ENOMEM),
the invalid-parameter errors to AVERROR(EINVAL), the six thread, semaphore
and mutex failures to AVERROR_EXTERNAL, and every unrecognized error value
to AVERROR_UNKNOWN; propagation is pure pass-through: each failing branch
of eb_enc_init, the only caller of error_mapping, returns exactly the
mapped code of the failing engine call, with no retry or recovery. -/
theorem error_mapping_translation :
    (error_mapping EbErrorType.EB_ErrorInsufficientResources = AVERROR ENOMEM ∧
     error_mapping EbErrorType.EB_ErrorUndefined = AVERROR EINVAL ∧
     error_mapping EbErrorType.EB_ErrorInvalidComponent = AVERROR EINVAL ∧
     error_mapping EbErrorType.EB_ErrorBadParameter = AVERROR EINVAL ∧
     error_mapping EbErrorType.EB_ErrorDestroyThreadFailed = AVERROR_EXTERNAL ∧
     error_mapping EbErrorType.EB_ErrorSemaphoreUnresponsive = AVERROR_EXTERNAL ∧
     error_mapping EbErrorType.EB_ErrorDestroySemaphoreFailed = AVERROR_EXTERNAL ∧
     error_mapping EbErrorType.EB_ErrorCreateMutexFailed = AVERROR_EXTERNAL ∧
     error_mapping EbErrorType.EB_ErrorMutexUnresponsive = AVERROR_EXTERNAL ∧
     error_mapping EbErrorType.EB_ErrorDestroyMutexFailed = AVERROR_EXTERNAL ∧
     (∀ code : Int,
        error_mapping (EbErrorType.EB_ErrorOther code) = AVERROR_UNKNOWN)) ∧
    (∀ (avctx : AVCodecContext) (r1 r2 r3 : EbErrorType) (aOk : Bool),
      (r1 ≠ EbErrorType.EB_ErrorNone →
        (eb_enc_init avctx r1 r2 r3 aOk).1 = error_mapping r1) ∧
      (r1 = EbErrorType.EB_ErrorNone → aOk = true →
        r2 ≠ EbErrorType.EB_ErrorNone →
        (eb_enc_init avctx r1 r2 r3 aOk).1 = error_mapping r2) ∧
      (r1 = EbErrorType.EB_ErrorNone → aOk = true →
        r2 = EbErrorType.EB_ErrorNone → r3 ≠ EbErrorType.EB_ErrorNone →
        (eb_enc_init avctx r1 r2 r3 aOk).1 = error_mapping r3)) := by
  constructor
  · exact ⟨rfl, rfl, rfl, rfl, rfl, rfl, rfl, rfl, rfl, rfl, fun _ => rfl⟩
  · intro avctx r1 r2 r3 aOk
    refine ⟨?_, ?_, ?_⟩
    · intro h1
      simp [eb_enc_init, h1]
    · intro h1 ha h2
      simp [eb_enc_init, h1, ha, h2]
    · intro h1 ha h2 h3
      simp [eb_enc_init, h1, ha, h2, h3]

/-- Witness for C6: a concrete failing initialization returns exactly the
mapped engine code. -/
theorem error_mapping_translation_witness :
    EbErrorType.EB_ErrorBadParameter ≠ EbErrorType.EB_ErrorNone ∧
    (eb_enc_init avctx0 EbErrorType.EB_ErrorBadParameter
        EbErrorType.EB_ErrorNone EbErrorType.EB_ErrorNone true).1 =
      error_mapping EbErrorType.EB_ErrorBadParameter :=
  ⟨by decide,
    (error_mapping_translation.2 avctx0 EbErrorType.EB_ErrorBadParameter
        EbErrorType.EB_ErrorNone EbErrorType.EB_ErrorNone true).1 (by decide)⟩
